import Mathlib

/-!
Formal model of the LinkedIn JSON-LD data extractor
(`linkedin_data_extractor_v2.py`).

JSON trees produced by `json.loads` are modelled by `JValue`, Python
dictionaries by association lists (`Dict`), and the exception flow of each
entity parser by an `Except`-valued body whose error payload carries the
fields accumulated before the fault: the source wraps the whole parser body
in `try ... except`, initialises the result dictionary before the `try`, and
returns that dictionary after the `except`, so a caught exception yields
exactly the fields written before the raise.

Python operations that can raise `AttributeError` / `TypeError` on
wrongly-typed values (`x.get(...)` on a non-dict, `k in x` on a non-container,
iterating a non-iterable, substring test on a non-string) are modelled by
`Except Unit` functions; operations the source guards with `isinstance`
checks are modelled by direct pattern matches.
-/

/-- A JSON value as produced by `json.loads`: null, bool, integer, string,
array, or object (association list of key/value pairs, keys unique). -/
inductive JValue where
  | null
  | bool (b : Bool)
  | num (n : Int)
  | str (s : String)
  | arr (items : List JValue)
  | obj (fields : List (String × JValue))

/-- A Python dictionary with string keys and JSON values; also the shape of a
`ParsedEntity` (the output dictionary of one entity parser). -/
abbrev Dict := List (String × JValue)

/-- Python `d.get(key)` on a dict: the first binding of `key`, if any. -/
def dget : Dict → String → Option JValue
  | [], _ => none
  | (k1, v) :: rest, k => if k1 == k then some v else dget rest k

/-- Python `d.get(key, default)` on a dict. -/
def dgetD (d : Dict) (k : String) (dflt : JValue) : JValue :=
  (dget d k).getD dflt

/-- Python `key in d` for a dict. -/
def dhas (d : Dict) (k : String) : Bool :=
  (dget d k).isSome

/-- Python `d[key] = v`: overwrite the binding of `key` if present, else
append it. -/
def dset : Dict → String → JValue → Dict
  | [], k, v => [(k, v)]
  | (k1, v1) :: rest, k, v =>
    if k1 == k then (k, v) :: rest else (k1, v1) :: dset rest k v

/-- Python `d.update(src)` applied binding by binding, in order. -/
def dupdate (d : Dict) : Dict → Dict
  | [] => d
  | (k, v) :: rest => dupdate (dset d k v) rest

/-- String-valued dictionary (used for the meta-tag buckets). -/
abbrev SDict := List (String × String)

/-- Lookup in a string-valued dictionary. -/
def sget : SDict → String → Option String
  | [], _ => none
  | (k1, v) :: rest, k => if k1 == k then some v else sget rest k

/-- Python `d.get(key, default)` on a string-valued dictionary. -/
def sgetD (d : SDict) (k : String) (dflt : String) : String :=
  (sget d k).getD dflt

/-- Python `d[key] = v` on a string-valued dictionary. -/
def sset : SDict → String → String → SDict
  | [], k, v => [(k, v)]
  | (k1, v1) :: rest, k, v =>
    if k1 == k then (k, v) :: rest else (k1, v1) :: sset rest k v

/-- Python truthiness of a JSON value: `None`, `False`, `0`, `""`, `[]` and
an empty dict are falsy, everything else truthy. -/
def truthy : JValue → Bool
  | .null => false
  | .bool b => b
  | .num n => !(n == 0)
  | .str s => !(s == "")
  | .arr l => !l.isEmpty
  | .obj d => !d.isEmpty

/-- Python truthiness of `d.get(key)` (absent key gives `None`, falsy). -/
def truthyO : Option JValue → Bool
  | none => false
  | some v => truthy v

/-- Does the character list `needle` occur contiguously in `hay`?
Models Python substring containment `needle in hay`. -/
def listHasInfix (needle : List Char) : List Char → Bool
  | [] => needle.isEmpty
  | c :: rest => needle.isPrefixOf (c :: rest) || listHasInfix needle rest

/-- Python `sub in s` for strings. -/
def strContains (s sub : String) : Bool :=
  listHasInfix sub.toList s.toList

/-- Python `s.startswith(pre)`. -/
def strStartsWith (s pre : String) : Bool :=
  pre.toList.isPrefixOf s.toList

/-- Whitespace stripping on both ends of a character list. -/
def stripChars (l : List Char) : List Char :=
  ((l.dropWhile Char.isWhitespace).reverse.dropWhile Char.isWhitespace).reverse

/-- Python `s.strip()` (whitespace stripped from both ends). -/
def pyStrip (s : String) : String :=
  String.mk (stripChars s.toList)

/-- Python `s.split('|')[0]`: the characters before the first `|`, or the
whole string when no `|` occurs. -/
def splitBarHead (s : String) : String :=
  String.mk (s.toList.takeWhile (fun c => !(c == '|')))

/-- Is the JSON value exactly the string `s`?  Models a Python `==`
comparison of an arbitrary value with a string literal. -/
def isStrVal (v : JValue) (s : String) : Bool :=
  match v with
  | .str t => t == s
  | _ => false

/-- Does the dict carry `"@type"` equal to the string `t`?  Models
`item.get('@type') == t` (an absent key gives `None`, which compares
unequal to any string). -/
def typeIs (d : Dict) (t : String) : Bool :=
  isStrVal (dgetD d "@type" .null) t

/-- Python `k in v` for an arbitrary JSON value: key membership on a dict,
element membership on a list (an element matches only if it is the string
`k`), substring test on a string; raises `TypeError` otherwise. -/
def pyContains (k : String) (v : JValue) : Except Unit Bool :=
  match v with
  | .obj d => .ok (dhas d k)
  | .arr l => .ok (l.any (fun x => isStrVal x k))
  | .str s => .ok (strContains s k)
  | _ => .error ()

/-- Python `for item in v`: a list yields its items, a string its
one-character substrings, a dict its keys; anything else raises
`TypeError`. -/
def pyIterList : JValue → Except Unit (List JValue)
  | .arr l => .ok l
  | .str s => .ok (s.toList.map (fun c => JValue.str (String.singleton c)))
  | .obj d => .ok (d.map (fun kv => JValue.str kv.1))
  | _ => .error ()

/-! ## Profile parser (`_parse_profile_json_ld`, source lines 140-209) -/

/-- The `worksFor` loop of the profile parser: non-dict entries are skipped;
for a dict entry the source computes
`work.get('member', {}).get('description', '')`, which raises if the
`member` value is present but not a dict. -/
def worksForLoop : List JValue → Except Unit (List JValue)
  | [] => .ok []
  | w :: rest =>
    match w with
    | .obj wd =>
      match dgetD wd "member" (.obj []) with
      | .obj md =>
        let info : JValue := .obj [
          ("company_name", dgetD wd "name" (.str "")),
          ("company_url", dgetD wd "url" (.str "")),
          ("description", dgetD md "description" (.str "")),
          ("start_date", dgetD md "startDate" (.str ""))]
        match worksForLoop rest with
        | .ok infos => .ok (info :: infos)
        | .error e => .error e
      | _ => .error ()
    | _ => worksForLoop rest

/-- Follower extraction shared by both profile branches: requires an
`interactionStatistic` dict whose `interactionType` is exactly the string
`https://schema.org/FollowAction` (source lines 177-182 and 197-202). -/
def profileFollowers (d : Dict) (pd : Dict) : Dict :=
  match dget d "interactionStatistic" with
  | some (.obj idd) =>
    if isStrVal (dgetD idd "interactionType" .null) "https://schema.org/FollowAction" then
      dset pd "followers" (dgetD idd "userInteractionCount" (.num 0))
    else pd
  | _ => pd

/-- Parsing of the first `Person` node found inside an `@graph` list
(source lines 148-184).  The error payload is the data accumulated before
a raise inside the `worksFor` loop. -/
def profileGraphPerson (item : Dict) (pd0 : Dict) : Except Dict Dict :=
  let pd := dset pd0 "name" (dgetD item "name" (.str ""))
  let pd := dset pd "job_title" (dgetD item "jobTitle" (.arr []))
  let pd := dset pd "description" (dgetD item "description" (.str ""))
  let pd := dset pd "url" (dgetD item "url" (.str ""))
  let pd := match dget item "image" with
    | some (.obj im) => dset pd "image_url" (dgetD im "contentUrl" (.str ""))
    | _ => pd
  let pd := match dget item "address" with
    | some (.obj ad) =>
      dset (dset pd "location" (dgetD ad "addressLocality" (.str "")))
        "country" (dgetD ad "addressCountry" (.str ""))
    | _ => pd
  match dget item "worksFor" with
  | some (.arr ws) =>
    match worksForLoop ws with
    | .ok infos => .ok (profileFollowers item (dset pd "works_for" (.arr infos)))
    | .error _ => .error pd
  | _ => .ok (profileFollowers item pd)

/-- The `@graph` scan of the profile parser: the first node whose `@type` is
the string `Person` is parsed and the loop breaks; `item.get` on a non-dict
node raises. -/
def profileGraphLoop : List JValue → Dict → Except Dict Dict
  | [], pd => .ok pd
  | item :: rest, pd =>
    match item with
    | .obj d =>
      if typeIs d "Person" then profileGraphPerson d pd
      else profileGraphLoop rest pd
    | _ => .error pd

/-- The direct top-level `Person` branch of the profile parser (source lines
187-202): note it extracts neither address nor `worksFor` data. -/
def profileDirect (d : Dict) : Dict :=
  let pd := dset [] "name" (dgetD d "name" (.str ""))
  let pd := dset pd "job_title" (dgetD d "jobTitle" (.arr []))
  let pd := dset pd "description" (dgetD d "description" (.str ""))
  let pd := dset pd "url" (dgetD d "url" (.str ""))
  let pd := match dget d "image" with
    | some (.obj im) => dset pd "image_url" (dgetD im "contentUrl" (.str ""))
    | _ => pd
  profileFollowers d pd

/-- Body of `_parse_profile_json_ld` inside its `try` block.  `.error pd`
means an exception was raised with `pd` the fields accumulated so far. -/
def parse_profile_body (j : JValue) : Except Dict Dict :=
  match pyContains "@graph" j with
  | .error _ => .error []
  | .ok true =>
    match j with
    | .obj d =>
      match pyIterList (dgetD d "@graph" .null) with
      | .ok items => profileGraphLoop items []
      | .error _ => .error []
    | _ => .error []
  | .ok false =>
    match j with
    | .obj d => .ok (if typeIs d "Person" then profileDirect d else [])
    | _ => .error []

/-- `_parse_profile_json_ld`: the `except` clause returns the accumulated
dictionary, so a raised exception degrades to the partial data. -/
def parse_profile_json_ld (j : JValue) : Dict :=
  match parse_profile_body j with
  | .ok pd => pd
  | .error pd => pd

/-! ## Company parser (`_parse_company_json_ld`, source lines 211-265) -/

/-- Parsing of an `Organization` node found inside an `@graph` list (source
lines 218-243); every nested access is `isinstance`-guarded, so this part
cannot raise. -/
def companyGraphOrg (item : Dict) (pd0 : Dict) : Dict :=
  let pd := dset pd0 "name" (dgetD item "name" (.str ""))
  let pd := dset pd "description" (dgetD item "description" (.str ""))
  let pd := dset pd "url" (dgetD item "url" (.str ""))
  let pd := dset pd "slogan" (dgetD item "slogan" (.str ""))
  let pd := match dget item "logo" with
    | some (.obj lg) => dset pd "logo_url" (dgetD lg "contentUrl" (.str ""))
    | _ => pd
  let pd := match dget item "address" with
    | some (.obj ad) =>
      dset pd "address" (.obj [
        ("street", dgetD ad "streetAddress" (.str "")),
        ("city", dgetD ad "addressLocality" (.str "")),
        ("region", dgetD ad "addressRegion" (.str "")),
        ("postal_code", dgetD ad "postalCode" (.str "")),
        ("country", dgetD ad "addressCountry" (.str ""))])
    | _ => pd
  match dget item "numberOfEmployees" with
  | some (.obj ne) => dset pd "employee_count" (dgetD ne "value" (.num 0))
  | _ => pd

/-- The `@graph` scan of the company parser. -/
def companyGraphLoop : List JValue → Dict → Except Dict Dict
  | [], pd => .ok pd
  | item :: rest, pd =>
    match item with
    | .obj d =>
      if typeIs d "Organization" then .ok (companyGraphOrg d pd)
      else companyGraphLoop rest pd
    | _ => .error pd

/-- The direct top-level `Organization` branch (source lines 246-258):
no address extraction in this branch. -/
def companyDirect (d : Dict) : Dict :=
  let pd := dset [] "name" (dgetD d "name" (.str ""))
  let pd := dset pd "description" (dgetD d "description" (.str ""))
  let pd := dset pd "url" (dgetD d "url" (.str ""))
  let pd := dset pd "slogan" (dgetD d "slogan" (.str ""))
  let pd := match dget d "logo" with
    | some (.obj lg) => dset pd "logo_url" (dgetD lg "contentUrl" (.str ""))
    | _ => pd
  match dget d "numberOfEmployees" with
  | some (.obj ne) => dset pd "employee_count" (dgetD ne "value" (.num 0))
  | _ => pd

/-- Body of `_parse_company_json_ld` inside its `try` block. -/
def parse_company_body (j : JValue) : Except Dict Dict :=
  match pyContains "@graph" j with
  | .error _ => .error []
  | .ok true =>
    match j with
    | .obj d =>
      match pyIterList (dgetD d "@graph" .null) with
      | .ok items => companyGraphLoop items []
      | .error _ => .error []
    | _ => .error []
  | .ok false =>
    match j with
    | .obj d => .ok (if typeIs d "Organization" then companyDirect d else [])
    | _ => .error []

/-- `_parse_company_json_ld` with its boundary `except`. -/
def parse_company_json_ld (j : JValue) : Dict :=
  match parse_company_body j with
  | .ok pd => pd
  | .error pd => pd

/-! ## Post parser (`_parse_post_json_ld`, source lines 267-323) -/

/-- The comment loop of the post parser (source lines 296-305): non-dict
comments are skipped; `comment.get('author', {}).get('name', '')` and
`comment.get('interactionStatistic', {}).get('userInteractionCount', 0)`
raise when the respective value is present but not a dict. -/
def postCommentsLoop : List JValue → Except Unit (List JValue)
  | [] => .ok []
  | c :: rest =>
    match c with
    | .obj cd =>
      match dgetD cd "author" (.obj []) with
      | .obj ad =>
        match dgetD cd "interactionStatistic" (.obj []) with
        | .obj sd =>
          let info : JValue := .obj [
            ("text", dgetD cd "text" (.str "")),
            ("date_published", dgetD cd "datePublished" (.str "")),
            ("author_name", dgetD ad "name" (.str "")),
            ("likes", dgetD sd "userInteractionCount" (.num 0))]
          match postCommentsLoop rest with
          | .ok infos => .ok (info :: infos)
          | .error e => .error e
        | _ => .error ()
      | _ => .error ()
    | _ => postCommentsLoop rest

/-- The list-shaped interaction-statistics loop shared verbatim by the post
parser (source lines 309-316) and the newsletter parser (lines 357-364):
non-dict entries are skipped; the substring tests
`'LikeAction' in interaction_type` / `'CommentAction' in interaction_type`
raise `TypeError` when the `interactionType` value is not a string. -/
def statsLoop : List JValue → Dict → Except Dict Dict
  | [], pd => .ok pd
  | s :: rest, pd =>
    match s with
    | .obj sd =>
      match dgetD sd "interactionType" (.str "") with
      | .str t =>
        if strContains t "LikeAction" then
          statsLoop rest (dset pd "likes" (dgetD sd "userInteractionCount" (.num 0)))
        else if strContains t "CommentAction" then
          statsLoop rest (dset pd "comments_count" (dgetD sd "userInteractionCount" (.num 0)))
        else statsLoop rest pd
      | _ => .error pd
    | _ => statsLoop rest pd

/-- Author extraction of the post parser (source lines 280-292): the author
image access can raise on a non-dict `image` value; the author follower
count requires `interactionType` to be exactly the string
`http://schema.org/FollowAction` (insecure scheme). -/
def postAuthor (jd : Dict) (pd : Dict) : Except Dict Dict :=
  match dget jd "author" with
  | some (.obj ad) =>
    let imgRes : Except Unit JValue :=
      if dhas ad "image" then
        match dgetD ad "image" .null with
        | .obj im => .ok (dgetD im "url" (.str ""))
        | _ => .error ()
      else .ok (.str "")
    match imgRes with
    | .error _ => .error pd
    | .ok img =>
      let pd := dset pd "author" (.obj [
        ("name", dgetD ad "name" (.str "")),
        ("url", dgetD ad "url" (.str "")),
        ("image_url", img)])
      match dget ad "interactionStatistic" with
      | some (.obj idd) =>
        if isStrVal (dgetD idd "interactionType" .null) "http://schema.org/FollowAction" then
          .ok (dset pd "author_followers" (dgetD idd "userInteractionCount" (.num 0)))
        else .ok pd
      | _ => .ok pd
  | _ => .ok pd

/-- Interaction statistics of the post node itself: only a list-shaped
`interactionStatistic` is scanned (source line 309). -/
def postStats (jd : Dict) (pd : Dict) : Except Dict Dict :=
  match dget jd "interactionStatistic" with
  | some (.arr ss) => statsLoop ss pd
  | _ => .ok pd

/-- Body of `_parse_post_json_ld`: only a direct top-level
`DiscussionForumPosting` node is parsed; there is no `@graph` handling. -/
def parse_post_body (j : JValue) : Except Dict Dict :=
  match j with
  | .obj jd =>
    if typeIs jd "DiscussionForumPosting" then
      let pd := dset [] "headline" (dgetD jd "headline" (.str ""))
      let pd := dset pd "article_body" (dgetD jd "articleBody" (.str ""))
      let pd := dset pd "date_published" (dgetD jd "datePublished" (.str ""))
      let pd := dset pd "url" (dgetD jd "@id" (.str ""))
      let pd := dset pd "comment_count" (dgetD jd "commentCount" (.num 0))
      match postAuthor jd pd with
      | .error pd2 => .error pd2
      | .ok pd =>
        match dget jd "comment" with
        | some (.arr cs) =>
          match postCommentsLoop cs with
          | .ok infos => postStats jd (dset pd "comments" (.arr infos))
          | .error _ => .error pd
        | _ => postStats jd pd
    else .ok []
  | _ => .error []

/-- `_parse_post_json_ld` with its boundary `except`. -/
def parse_post_json_ld (j : JValue) : Dict :=
  match parse_post_body j with
  | .ok pd => pd
  | .error pd => pd

/-! ## Newsletter parser (`_parse_newsletter_json_ld`, source lines 325-371) -/

/-- Author extraction of the newsletter parser (source lines 343-354):
`isinstance`-guarded throughout, so it cannot raise; the author follower
count requires `interactionType` to be exactly the string
`https://schema.org/FollowAction` (secure scheme). -/
def newsletterAuthor (jd : Dict) (pd : Dict) : Dict :=
  match dget jd "author" with
  | some (.obj ad) =>
    let pd := dset pd "author" (.obj [
      ("name", dgetD ad "name" (.str "")),
      ("url", dgetD ad "url" (.str ""))])
    match dget ad "interactionStatistic" with
    | some (.obj idd) =>
      if isStrVal (dgetD idd "interactionType" .null) "https://schema.org/FollowAction" then
        dset pd "author_followers" (dgetD idd "userInteractionCount" (.num 0))
      else pd
    | _ => pd
  | _ => pd

/-- Body of `_parse_newsletter_json_ld`: only a direct top-level `Article`
node is parsed; there is no `@graph` handling.  Note the image URL comes
from the nested `url` field (not `contentUrl`). -/
def parse_newsletter_body (j : JValue) : Except Dict Dict :=
  match j with
  | .obj jd =>
    if typeIs jd "Article" then
      let pd := dset [] "headline" (dgetD jd "headline" (.str ""))
      let pd := dset pd "name" (dgetD jd "name" (.str ""))
      let pd := dset pd "url" (dgetD jd "url" (.str ""))
      let pd := dset pd "date_published" (dgetD jd "datePublished" (.str ""))
      let pd := dset pd "date_modified" (dgetD jd "dateModified" (.str ""))
      let pd := dset pd "comment_count" (dgetD jd "commentCount" (.num 0))
      let pd := match dget jd "image" with
        | some (.obj im) => dset pd "image_url" (dgetD im "url" (.str ""))
        | _ => pd
      let pd := newsletterAuthor jd pd
      match dget jd "interactionStatistic" with
      | some (.arr ss) => statsLoop ss pd
      | _ => .ok pd
    else .ok []
  | _ => .error []

/-- `_parse_newsletter_json_ld` with its boundary `except`. -/
def parse_newsletter_json_ld (j : JValue) : Dict :=
  match parse_newsletter_body j with
  | .ok pd => pd
  | .error pd => pd

/-! ## Generic parser (`_parse_generic_json_ld`, source lines 373-399) -/

/-- The common-field loop of the generic parser: copies each listed key
verbatim when present. -/
def commonFieldsLoop : List String → Dict → Dict → Dict
  | [], _, pd => pd
  | k :: rest, jd, pd =>
    match dget jd k with
    | some v => commonFieldsLoop rest jd (dset pd k v)
    | none => commonFieldsLoop rest jd pd

/-- Body of `_parse_generic_json_ld`: `json_data.get` raises on a non-dict
input; the image URL resolves `contentUrl` first (Python `or` falls through
on a falsy value) and accepts a bare string image. -/
def parse_generic_body (j : JValue) : Except Dict Dict :=
  match j with
  | .obj jd =>
    let pd := dset [] "type" (dgetD jd "@type" (.str ""))
    let pd := dset pd "context" (dgetD jd "@context" (.str ""))
    let pd := dset pd "id" (dgetD jd "@id" (.str ""))
    let pd := commonFieldsLoop ["name", "description", "url", "headline", "datePublished"] jd pd
    match dget jd "image" with
    | some (.obj im) =>
      let a := dgetD im "contentUrl" .null
      .ok (dset pd "image_url" (if truthy a then a else dgetD im "url" (.str "")))
    | some (.str s) => .ok (dset pd "image_url" (.str s))
    | _ => .ok pd
  | _ => .error []

/-- `_parse_generic_json_ld` with its boundary `except`. -/
def parse_generic_json_ld (j : JValue) : Dict :=
  match parse_generic_body j with
  | .ok pd => pd
  | .error pd => pd

/-! ## Structured-data extraction (`_extract_json_ld_data`, source lines 82-138) -/

/-- The URL classification produced by the fetch layer and switched on in
`_extract_json_ld_data` and `_combine_data_sources`; `generic` covers every
unrecognised URL type (the `else` branches of the source). -/
inductive UrlType where
  | profile
  | company
  | post
  | newsletter
  | generic
deriving DecidableEq, BEq, Repr

/-- Dispatch of a parsed JSON-LD tree to the parser for the URL type
(source lines 110-125). -/
def dispatch_parse (ut : UrlType) (j : JValue) : Dict :=
  match ut with
  | .profile => parse_profile_json_ld j
  | .company => parse_company_json_ld j
  | .post => parse_post_json_ld j
  | .newsletter => parse_newsletter_json_ld j
  | .generic => parse_generic_json_ld j

/-- The `data_type` string recorded alongside the dispatch. -/
def dataTypeName (ut : UrlType) : String :=
  match ut with
  | .profile => "profile"
  | .company => "company"
  | .post => "post"
  | .newsletter => "newsletter"
  | .generic => "generic"

/-- The result envelope of `_extract_json_ld_data` (source lines 86-91). -/
structure JsonLdData where
  found : Bool
  raw_json : Option JValue
  parsed_data : Dict
  data_type : Option String

/-- `_extract_json_ld_data` over the JSON-LD script candidates of a
document, in document order.  Each candidate is the outcome of
`json.loads` on one script body: `none` stands for a candidate that is
skipped (missing/empty script text, or `json.JSONDecodeError`, both of
which make the loop continue), `some j` for a successful parse to the tree
`j`.  The loop records the first successful candidate and breaks; if no
candidate succeeds the envelope keeps `found = false` and no error is
raised to the caller. -/
def extract_json_ld_data : List (Option JValue) → UrlType → JsonLdData
  | [], _ => { found := false, raw_json := none, parsed_data := [], data_type := none }
  | none :: rest, ut => extract_json_ld_data rest ut
  | some j :: _, ut =>
    { found := true, raw_json := some j,
      parsed_data := dispatch_parse ut j, data_type := some (dataTypeName ut) }

/-! ## Meta-tag extraction (`_extract_meta_data`, source lines 401-440) -/

/-- One `<meta>` element: its `name`, `property` and `content` attributes
(`none` when the attribute is absent). -/
structure MetaTag where
  name : Option String
  property : Option String
  content : Option String

/-- The bucket structure built by `_extract_meta_data` (source lines
406-412). -/
structure MetaBuckets where
  open_graph : SDict
  twitter : SDict
  other_meta : SDict
  title : String
  description : String

/-- Python truthiness of an optional attribute string: absent or empty is
falsy. -/
def strTruthy : Option String → Bool
  | none => false
  | some s => !(s == "")

/-- Python `a or b` on attribute values (used for
`meta.get('name') or meta.get('property')`). -/
def pyOrStr (a b : Option String) : Option String :=
  if strTruthy a then a else b

/-- The body of the meta-tag loop (source lines 416-426): an entry is kept
only when both the resolved name (`name` attribute, falling back to
`property`) and the `content` attribute are present and non-empty, and is
then classified by prefix into the OpenGraph, Twitter or other bucket. -/
def metaStep (md : MetaBuckets) (m : MetaTag) : MetaBuckets :=
  let nameO := pyOrStr m.name m.property
  if strTruthy nameO && strTruthy m.content then
    let n := nameO.getD ""
    let c := m.content.getD ""
    if strStartsWith n "og:" then { md with open_graph := sset md.open_graph n c }
    else if strStartsWith n "twitter:" then { md with twitter := sset md.twitter n c }
    else { md with other_meta := sset md.other_meta n c }
  else md

/-- `_extract_meta_data` over the document's `<meta>` elements (in document
order) and the text of its `<title>` element, if any.  The description is
re-read from the first `<meta>` whose `name` attribute is exactly
`description` (source lines 428-436). -/
def extract_meta_data (metaTags : List MetaTag) (titleText : Option String) : MetaBuckets :=
  let md0 : MetaBuckets :=
    { open_graph := [], twitter := [], other_meta := [], title := "", description := "" }
  let md1 := metaTags.foldl metaStep md0
  let md2 :=
    match titleText with
    | some t => { md1 with title := t }
    | none => md1
  match metaTags.find? (fun m => m.name == some "description") with
  | some m => { md2 with description := m.content.getD "" }
  | none => md2

/-! ## Reconciler (`_combine_data_sources`, source lines 442-517) -/

/-- Step 1 of the reconciler (source lines 446-448): seed the combined
record with the parsed entity fields when structured data was found. -/
def combineSeed (jld : JsonLdData) : Dict :=
  if jld.found then dupdate [] jld.parsed_data else []

/-- OpenGraph supplement (source lines 453-459): only when the OpenGraph
bucket is non-empty, store its standard fields under `og_`-prefixed keys. -/
def combineMetaOg (d : Dict) (og : SDict) : Dict :=
  if og.isEmpty then d
  else
    dset (dset (dset (dset (dset d
      "og_title" (.str (sgetD og "og:title" "")))
      "og_description" (.str (sgetD og "og:description" "")))
      "og_image" (.str (sgetD og "og:image" "")))
      "og_url" (.str (sgetD og "og:url" "")))
      "og_type" (.str (sgetD og "og:type" ""))

/-- Twitter supplement (source lines 462-466). -/
def combineMetaTw (d : Dict) (tw : SDict) : Dict :=
  if tw.isEmpty then d
  else
    dset (dset (dset d
      "twitter_title" (.str (sgetD tw "twitter:title" "")))
      "twitter_description" (.str (sgetD tw "twitter:description" "")))
      "twitter_image" (.str (sgetD tw "twitter:image" ""))

/-- Step 2 of the reconciler (source lines 451-470): layer the meta buckets
under distinct prefixed keys; the page title and meta description are always
stored (the surrounding `if meta_data:` is always true since the bucket
structure always carries its five keys). -/
def combineMeta (d : Dict) (md : MetaBuckets) : Dict :=
  dset (dset (combineMetaTw (combineMetaOg d md.open_graph) md.twitter)
    "page_title" (.str md.title))
    "page_description" (.str md.description)

/-- The newsletter-name derivation of the fallback (source lines 478-482):
split the OpenGraph title on `|` and keep the first segment stripped, or the
whole title when it is empty or has no separator. -/
def newsletterNameOfTitle (title : String) : String :=
  if !(title == "") && strContains title "|" then
    pyStrip (splitBarHead title)
  else title

/-- Step 3 of the reconciler, the newsletter-only fallback (source lines
472-496): it synthesises the primary entity fields from the OpenGraph bucket
only when the URL type is newsletter, structured data was not found, and the
OpenGraph bucket is non-empty. -/
def combineNewsletterFallback (d0 : Dict) (found : Bool) (md : MetaBuckets) (ut : UrlType) : Dict :=
  if ut == UrlType.newsletter && !found then
    if md.open_graph.isEmpty then d0
    else
      let og := md.open_graph
      let d := dset d0 "name" (.str (newsletterNameOfTitle (sgetD og "og:title" "")))
      let d := dset d "description" (.str (sgetD og "og:description" ""))
      let d := dset d "image_url" (.str (sgetD og "og:image" ""))
      let d := dset d "url" (.str (sgetD og "og:url" ""))
      let d := dset d "author" (.obj [("name", .str "N/A"), ("url", .str "N/A")])
      dset d "date_published" (.str "N/A")
  else d0

/-- Characters at which the capture group `[^/?]+` stops. -/
def isStopChar (c : Char) : Bool :=
  c == '/' || c == '?'

/-- The maximal run of non-stop characters, i.e. one match of `[^/?]+`. -/
def captureRun (cs : List Char) : List Char :=
  cs.takeWhile (fun c => !isStopChar c)

/-- Leftmost match of the regex `MARKER([^/?]+)`: at each position, if the
literal marker is present and followed by at least one non-stop character,
capture the maximal run of non-stop characters; otherwise move one character
to the right, exactly as `re.search` does. -/
def findCapture (marker : List Char) : List Char → Option (List Char)
  | [] => none
  | c :: rest =>
    if marker.isPrefixOf (c :: rest) then
      let cap := captureRun ((c :: rest).drop marker.length)
      if cap.isEmpty then findCapture marker rest else some cap
    else findCapture marker rest

/-- `re.search(marker + r'([^/?]+)', s)` returning the captured group. -/
def captureAfter (marker : String) (s : String) : Option String :=
  (findCapture marker.toList s.toList).map (fun l => String.mk l)

/-- Step 4 of the reconciler, the username backfill (source lines 498-513):
when the combined record has no truthy `username`, derive it from the
current page URL by the per-type pattern; no rule exists for posts or
unrecognised URL types. -/
def combineUsername (d : Dict) (ut : UrlType) (pageUrl : String) : Dict :=
  match ut with
  | .profile =>
    if !truthyO (dget d "username") then
      match captureAfter "linkedin.com/in/" pageUrl with
      | some u => dset d "username" (.str u)
      | none => d
    else d
  | .company =>
    if !truthyO (dget d "username") then
      match captureAfter "linkedin.com/company/" pageUrl with
      | some u => dset d "username" (.str u)
      | none => d
    else d
  | .newsletter =>
    if !truthyO (dget d "username") then
      match captureAfter "linkedin.com/newsletters/" pageUrl with
      | some u => dset d "username" (.str u)
      | none => d
    else d
  | _ => d

/-- `_combine_data_sources`: the four reconciliation steps in source
order. -/
def combine_data_sources (jld : JsonLdData) (md : MetaBuckets) (ut : UrlType) (pageUrl : String) : Dict :=
  combineUsername
    (combineNewsletterFallback (combineMeta (combineSeed jld) md) jld.found md ut)
    ut pageUrl

/-! ## Top-level envelope (`extract_linkedin_data`, source lines 30-80) -/

/-- The successful result envelope of `extract_linkedin_data` (source lines
47-72). -/
structure ExtractedData where
  url : String
  url_type : UrlType
  popup_closed : Bool
  json_ld_data : JsonLdData
  meta_data : MetaBuckets
  combined_data : Dict
  extraction_success : Bool

/-- The pure core of `extract_linkedin_data` after the fetch: run the
structured-data extraction and the meta extraction over the document,
combine them, and mark success exactly when structured data was found
(source line 70). -/
def extract_linkedin_data_core (url : String) (popupClosed : Bool)
    (candidates : List (Option JValue)) (metaTags : List MetaTag)
    (titleText : Option String) (ut : UrlType) (pageUrl : String) : ExtractedData :=
  let jld := extract_json_ld_data candidates ut
  let md := extract_meta_data metaTags titleText
  let cd := combine_data_sources jld md ut pageUrl
  { url := url, url_type := ut, popup_closed := popupClosed,
    json_ld_data := jld, meta_data := md, combined_data := cd,
    extraction_success := jld.found }

/-! ## Auxiliary predicates and concrete fixtures used by the verification -/

def exceptNoKey (k : String) : Except Dict Dict → Prop
  | .ok pd => dget pd k = none
  | .error pd => dget pd k = none

/-- A profile tree on which the parser raises internally after extracting
four fields: the `worksFor` entry carries a string-valued `member`, so
`work.get('member', {}).get('description', '')` raises `AttributeError`
(source line 171). -/
def profileFaultTree : JValue :=
  JValue.obj [("@graph", JValue.arr [JValue.obj [("@type", JValue.str "Person"),
    ("name", JValue.str "Ada"),
    ("worksFor", JValue.arr [JValue.obj [("member", JValue.str "oops")]])]])]

/-- The fields the profile parser has accumulated when the fault on
`profileFaultTree` is raised. -/
def profileFaultPartial : Dict :=
  [("name", JValue.str "Ada"), ("job_title", JValue.arr []),
   ("description", JValue.str ""), ("url", JValue.str "")]

/-- Is the JSON value a dict node whose declared `@type` is the string `t`? -/
def isTypedNode (t : String) (i : JValue) : Bool :=
  match i with
  | .obj d => typeIs d t
  | _ => false

/-- Is the JSON value a dict node that the graph scan for target type `t`
steps over (a dict whose declared type is not `t`)? -/
def skipsType (t : String) (i : JValue) : Bool :=
  match i with
  | .obj d => !typeIs d t
  | _ => false

/-- An empty meta bucket structure (initial value of `_extract_meta_data`). -/
def emptyBuckets : MetaBuckets :=
  { open_graph := [], twitter := [], other_meta := [], title := "", description := "" }

/-- A structured-data envelope recording that no candidate parsed. -/
def jldNotFound : JsonLdData :=
  { found := false, raw_json := none, parsed_data := [], data_type := none }

/-- A structured-data envelope for a found candidate whose entity parse is
empty. -/
def jldFoundEmpty : JsonLdData :=
  { found := true, raw_json := some (JValue.obj []), parsed_data := [], data_type := some "newsletter" }

/-- Meta buckets holding a single OpenGraph title with a vertical-bar
separator. -/
def ogTitleBuckets : MetaBuckets :=
  { open_graph := [("og:title", "AI Insider | LinkedIn")], twitter := [], other_meta := [],
    title := "", description := "" }

/-! ## Helper lemmas and claim theorems -/

theorem dget_dset_self (d : Dict) (k : String) (v : JValue) : dget (dset d k v) k = some v := by
  induction d with
  | nil => simp [dset, dget]
  | cons kv rest ih =>
    obtain ⟨k1, v1⟩ := kv
    cases h : k1 == k <;> simp_all [dset, dget]

theorem dget_dset_ne (d : Dict) (k k2 : String) (v : JValue) (h : k2 ≠ k) :
    dget (dset d k v) k2 = dget d k2 := by
  induction d with
  | nil => simp [dset, dget, Ne.symm h, beq_eq_false_iff_ne]
  | cons kv rest ih =>
    obtain ⟨k1, v1⟩ := kv
    cases hk : k1 == k
    · simp [dset, dget, hk, ih]
    · have : k1 = k := eq_of_beq hk
      subst this
      simp [dset, dget, Ne.symm h, beq_eq_false_iff_ne]

theorem profileFollowers_noUsername (d pd : Dict) (h : dget pd "username" = none) :
    dget (profileFollowers d pd) "username" = none := by
  unfold profileFollowers
  repeat' split
  all_goals simp [dget_dset_ne, h]

theorem profileGraphPerson_noUsername (item pd0 : Dict) (h : dget pd0 "username" = none) :
    exceptNoKey "username" (profileGraphPerson item pd0) := by
  simp only [profileGraphPerson]
  repeat' split
  all_goals simp_all [exceptNoKey, profileFollowers_noUsername, dget_dset_ne]

theorem profileGraphLoop_noUsername (items : List JValue) (pd : Dict) (h : dget pd "username" = none) :
    exceptNoKey "username" (profileGraphLoop items pd) := by
  induction items with
  | nil => exact h
  | cons i rest ih =>
    cases i <;> simp only [profileGraphLoop]
    case obj d =>
      split
      · exact profileGraphPerson_noUsername d pd h
      · exact ih
    all_goals exact h

theorem profileDirect_noUsername (d : Dict) : dget (profileDirect d) "username" = none := by
  unfold profileDirect
  repeat' split
  all_goals (apply profileFollowers_noUsername; simp [dget_dset_ne, dget])

theorem parse_profile_body_noUsername (j : JValue) : exceptNoKey "username" (parse_profile_body j) := by
  unfold parse_profile_body
  repeat' split
  all_goals first
    | rfl
    | exact profileGraphLoop_noUsername _ ([] : Dict) rfl
    | exact profileDirect_noUsername _

theorem parse_profile_noUsername (j : JValue) : dget (parse_profile_json_ld j) "username" = none := by
  have h := parse_profile_body_noUsername j
  unfold parse_profile_json_ld
  split <;> simp_all [exceptNoKey]

theorem companyGraphOrg_noUsername (item pd0 : Dict) (h : dget pd0 "username" = none) :
    dget (companyGraphOrg item pd0) "username" = none := by
  unfold companyGraphOrg
  repeat' split
  all_goals simp [dget_dset_ne, h]

theorem companyGraphLoop_noUsername (items : List JValue) (pd : Dict) (h : dget pd "username" = none) :
    exceptNoKey "username" (companyGraphLoop items pd) := by
  induction items with
  | nil => exact h
  | cons i rest ih =>
    cases i <;> simp only [companyGraphLoop]
    case obj d =>
      split
      · exact companyGraphOrg_noUsername d pd h
      · exact ih
    all_goals exact h

theorem companyDirect_noUsername (d : Dict) : dget (companyDirect d) "username" = none := by
  unfold companyDirect
  repeat' split
  all_goals simp [dget_dset_ne, dget]

theorem parse_company_body_noUsername (j : JValue) : exceptNoKey "username" (parse_company_body j) := by
  unfold parse_company_body
  repeat' split
  all_goals first
    | rfl
    | exact companyGraphLoop_noUsername _ ([] : Dict) rfl
    | exact companyDirect_noUsername _

theorem parse_company_noUsername (j : JValue) : dget (parse_company_json_ld j) "username" = none := by
  have h := parse_company_body_noUsername j
  unfold parse_company_json_ld
  split <;> simp_all [exceptNoKey]

theorem statsLoop_noUsername (ss : List JValue) (pd : Dict) (h : dget pd "username" = none) :
    exceptNoKey "username" (statsLoop ss pd) := by
  induction ss generalizing pd with
  | nil => exact h
  | cons s rest ih =>
    cases s <;> simp only [statsLoop]
    case obj sd =>
      repeat' split
      all_goals first
        | exact h
        | exact ih _ h
        | exact ih _ (by simp [dget_dset_ne, h])
    all_goals exact ih _ h

theorem postAuthor_noUsername (jd pd : Dict) (h : dget pd "username" = none) :
    exceptNoKey "username" (postAuthor jd pd) := by
  unfold postAuthor
  repeat' split
  all_goals first
    | exact h
    | simp [exceptNoKey, dget_dset_ne, h]

theorem postStats_noUsername (jd pd : Dict) (h : dget pd "username" = none) :
    exceptNoKey "username" (postStats jd pd) := by
  unfold postStats
  repeat' split
  all_goals first
    | exact h
    | exact statsLoop_noUsername _ _ h

theorem parse_post_body_noUsername (j : JValue) : exceptNoKey "username" (parse_post_body j) := by
  cases j <;> simp only [parse_post_body]
  case obj jd =>
    split
    · have h5 : dget (dset (dset (dset (dset (dset [] "headline" (dgetD jd "headline" (.str "")))
          "article_body" (dgetD jd "articleBody" (.str "")))
          "date_published" (dgetD jd "datePublished" (.str "")))
          "url" (dgetD jd "@id" (.str "")))
          "comment_count" (dgetD jd "commentCount" (.num 0))) "username" = none := by
        simp [dget_dset_ne, dget]
      split
      case h_1 pd2 heq =>
        have hA := postAuthor_noUsername jd _ h5
        rw [heq] at hA
        exact hA
      case h_2 pd heq =>
        have hA := postAuthor_noUsername jd _ h5
        rw [heq] at hA
        have hA2 : dget pd "username" = none := hA
        repeat' split
        all_goals first
          | exact hA2
          | exact postStats_noUsername _ _ hA2
          | exact postStats_noUsername _ _ (by simp [dget_dset_ne, hA2])
    · rfl
  all_goals rfl

theorem parse_post_noUsername (j : JValue) : dget (parse_post_json_ld j) "username" = none := by
  have h := parse_post_body_noUsername j
  unfold parse_post_json_ld
  split <;> simp_all [exceptNoKey]

theorem newsletterAuthor_noUsername (jd pd : Dict) (h : dget pd "username" = none) :
    dget (newsletterAuthor jd pd) "username" = none := by
  unfold newsletterAuthor
  repeat' split
  all_goals simp [dget_dset_ne, h]

theorem parse_newsletter_body_noUsername (j : JValue) : exceptNoKey "username" (parse_newsletter_body j) := by
  cases j <;> simp only [parse_newsletter_body]
  case obj jd =>
    split
    · repeat' split
      all_goals first
        | exact newsletterAuthor_noUsername _ _ (by simp [dget_dset_ne, dget])
        | exact statsLoop_noUsername _ _ (newsletterAuthor_noUsername _ _ (by simp [dget_dset_ne, dget]))
    · rfl
  all_goals rfl

theorem parse_newsletter_noUsername (j : JValue) : dget (parse_newsletter_json_ld j) "username" = none := by
  have h := parse_newsletter_body_noUsername j
  unfold parse_newsletter_json_ld
  split <;> simp_all [exceptNoKey]

theorem commonFieldsLoop_noUsername (ks : List String) (jd pd : Dict)
    (h : dget pd "username" = none) (hks : "username" ∉ ks) :
    dget (commonFieldsLoop ks jd pd) "username" = none := by
  induction ks generalizing pd with
  | nil => exact h
  | cons k rest ih =>
    have hk : "username" ≠ k := fun he => hks (by simp [he])
    have hrest : "username" ∉ rest := fun he => hks (by simp [he])
    simp only [commonFieldsLoop]
    split
    · exact ih _ (by rw [dget_dset_ne _ _ _ _ hk]; exact h) hrest
    · exact ih _ h hrest

theorem parse_generic_body_noUsername (j : JValue) : exceptNoKey "username" (parse_generic_body j) := by
  cases j <;> simp only [parse_generic_body]
  case obj jd =>
    have hc : dget (commonFieldsLoop ["name", "description", "url", "headline", "datePublished"] jd
        (dset (dset (dset [] "type" (dgetD jd "@type" (.str "")))
          "context" (dgetD jd "@context" (.str "")))
          "id" (dgetD jd "@id" (.str "")))) "username" = none := by
      apply commonFieldsLoop_noUsername
      · simp [dget_dset_ne, dget]
      · simp
    repeat' split
    all_goals simp [exceptNoKey, dget_dset_ne, hc]
  all_goals rfl

theorem parse_generic_noUsername (j : JValue) : dget (parse_generic_json_ld j) "username" = none := by
  have h := parse_generic_body_noUsername j
  unfold parse_generic_json_ld
  split <;> simp_all [exceptNoKey]

theorem dispatch_parse_noUsername (ut : UrlType) (j : JValue) :
    dget (dispatch_parse ut j) "username" = none := by
  cases ut
  · exact parse_profile_noUsername j
  · exact parse_company_noUsername j
  · exact parse_post_noUsername j
  · exact parse_newsletter_noUsername j
  · exact parse_generic_noUsername j

theorem extract_parsed_noUsername (cands : List (Option JValue)) (ut : UrlType) :
    dget (extract_json_ld_data cands ut).parsed_data "username" = none := by
  induction cands with
  | nil => rfl
  | cons c rest ih =>
    cases c
    · exact ih
    · exact dispatch_parse_noUsername ut _

theorem dget_combineMetaOg (d : Dict) (og : SDict) (k : String)
    (h1 : k ≠ "og_title") (h2 : k ≠ "og_description") (h3 : k ≠ "og_image")
    (h4 : k ≠ "og_url") (h5 : k ≠ "og_type") :
    dget (combineMetaOg d og) k = dget d k := by
  unfold combineMetaOg
  split
  · rfl
  · rw [dget_dset_ne _ _ _ _ h5, dget_dset_ne _ _ _ _ h4, dget_dset_ne _ _ _ _ h3,
      dget_dset_ne _ _ _ _ h2, dget_dset_ne _ _ _ _ h1]

theorem dget_combineMetaTw (d : Dict) (tw : SDict) (k : String)
    (h1 : k ≠ "twitter_title") (h2 : k ≠ "twitter_description") (h3 : k ≠ "twitter_image") :
    dget (combineMetaTw d tw) k = dget d k := by
  unfold combineMetaTw
  split
  · rfl
  · rw [dget_dset_ne _ _ _ _ h3, dget_dset_ne _ _ _ _ h2, dget_dset_ne _ _ _ _ h1]

theorem dget_combineMeta (d : Dict) (mb : MetaBuckets) (k : String)
    (h1 : k ≠ "og_title") (h2 : k ≠ "og_description") (h3 : k ≠ "og_image")
    (h4 : k ≠ "og_url") (h5 : k ≠ "og_type")
    (h6 : k ≠ "twitter_title") (h7 : k ≠ "twitter_description") (h8 : k ≠ "twitter_image")
    (h9 : k ≠ "page_title") (h10 : k ≠ "page_description") :
    dget (combineMeta d mb) k = dget d k := by
  unfold combineMeta
  rw [dget_dset_ne _ _ _ _ h10, dget_dset_ne _ _ _ _ h9,
    dget_combineMetaTw _ _ _ h6 h7 h8, dget_combineMetaOg _ _ _ h1 h2 h3 h4 h5]

theorem combineNewsletterFallback_found (d0 : Dict) (mb : MetaBuckets) (ut : UrlType) :
    combineNewsletterFallback d0 true mb ut = d0 := by
  simp [combineNewsletterFallback]

theorem combineNewsletterFallback_not_newsletter (d0 : Dict) (found : Bool) (mb : MetaBuckets)
    (ut : UrlType) (h : ut ≠ UrlType.newsletter) :
    combineNewsletterFallback d0 found mb ut = d0 := by
  cases ut
  case newsletter => exact absurd rfl h
  all_goals cases found <;> rfl

theorem dget_combineUsername (d : Dict) (ut : UrlType) (pageUrl : String) (k : String)
    (h : k ≠ "username") : dget (combineUsername d ut pageUrl) k = dget d k := by
  cases ut <;> unfold combineUsername <;> repeat' split
  all_goals simp [dget_dset_ne _ _ _ _ h]

theorem dget_dupdate_none (src d : Dict) (k : String) (h : dget src k = none) :
    dget (dupdate d src) k = dget d k := by
  induction src generalizing d with
  | nil => rfl
  | cons kv rest ih =>
    obtain ⟨k1, v1⟩ := kv
    simp only [dget] at h
    by_cases hk : (k1 == k) = true
    · rw [if_pos hk] at h
      cases h
    · rw [if_neg hk] at h
      have hne : k ≠ k1 := fun he => hk (by subst he; simp)
      simp only [dupdate]
      rw [ih _ h, dget_dset_ne _ _ _ _ hne]

/-- C1: for every meta bucket, url type and page URL, and every parsed-entity
field whose key is not one of the ten prefixed supplementary keys, the value
seeded from structured data in step 1 of the reconciler survives unchanged
into the final combined record.  (The `username` backfill cannot interfere
because no entity parser ever emits a `username` field, see
`extract_parsed_noUsername`; the newsletter fallback cannot fire because a
seeded field requires `found = true`.) -/
theorem structured_fields_never_overwritten (cands : List (Option JValue)) (mb : MetaBuckets)
    (ut : UrlType) (pageUrl : String) (k : String) (v : JValue)
    (hk : k ∉ ["og_title", "og_description", "og_image", "og_url", "og_type",
      "twitter_title", "twitter_description", "twitter_image", "page_title", "page_description"])
    (hseed : dget (combineSeed (extract_json_ld_data cands ut)) k = some v) :
    dget (combine_data_sources (extract_json_ld_data cands ut) mb ut pageUrl) k = some v := by
  simp only [List.mem_cons, List.not_mem_nil, or_false, not_or] at hk
  obtain ⟨h1, h2, h3, h4, h5, h6, h7, h8, h9, h10⟩ := hk
  have hfound : (extract_json_ld_data cands ut).found = true := by
    by_contra hf
    rw [Bool.not_eq_true] at hf
    rw [combineSeed, hf] at hseed
    simp [dget] at hseed
  have hku : k ≠ "username" := by
    intro he
    subst he
    rw [combineSeed, hfound, if_pos rfl] at hseed
    rw [dget_dupdate_none _ _ _ (extract_parsed_noUsername cands ut)] at hseed
    simp [dget] at hseed
  unfold combine_data_sources
  rw [dget_combineUsername _ _ _ _ hku, hfound, combineNewsletterFallback_found,
    dget_combineMeta _ _ _ h1 h2 h3 h4 h5 h6 h7 h8 h9 h10]
  exact hseed

/-- Witness for C1 at a concrete profile extraction. -/
theorem structured_fields_never_overwritten_witness :
    dget (combine_data_sources
      (extract_json_ld_data [some (JValue.obj [("@type", JValue.str "Person"), ("name", JValue.str "Ada")])] .profile)
      { open_graph := [("og:title", "T")], twitter := [], other_meta := [], title := "pt", description := "pd" }
      .profile "https://www.linkedin.com/in/ada/") "name" = some (JValue.str "Ada") :=
  structured_fields_never_overwritten
    [some (JValue.obj [("@type", JValue.str "Person"), ("name", JValue.str "Ada")])]
    { open_graph := [("og:title", "T")], twitter := [], other_meta := [], title := "pt", description := "pd" }
    .profile "https://www.linkedin.com/in/ada/" "name" (JValue.str "Ada") (by simp) rfl

/-- C2 counterexample: with a first candidate parsing as valid JSON to the
empty object (whose profile parse is empty) and a second candidate holding a
Person node, the extractor consults the first and ignores the second, so the
consulted block is not the first candidate that parses as valid JSON and
yields a non-empty parse. -/
theorem first_nonempty_parse_counterexample :
    (extract_json_ld_data [some (JValue.obj []),
        some (JValue.obj [("@type", JValue.str "Person"), ("name", JValue.str "Ada")])]
      .profile).raw_json = some (JValue.obj [])
    ∧ (extract_json_ld_data [some (JValue.obj []),
        some (JValue.obj [("@type", JValue.str "Person"), ("name", JValue.str "Ada")])]
      .profile).parsed_data = []
    ∧ parse_profile_json_ld (JValue.obj [("@type", JValue.str "Person"), ("name", JValue.str "Ada")]) ≠ [] :=
  ⟨rfl, rfl, List.cons_ne_nil _ _⟩

/-- C2 amended: the extractor uses the first candidate that parses as valid
JSON, regardless of whether its entity parse is non-empty; all candidates
failing JSON parsing before it are skipped, everything after it is ignored,
and when every candidate fails the extractor returns `found = false` without
raising. -/
theorem first_parse_success_used (ut : UrlType) :
    (∀ pre j rest, (∀ c ∈ pre, c = (none : Option JValue)) →
      extract_json_ld_data (pre ++ some j :: rest) ut =
        { found := true, raw_json := some j, parsed_data := dispatch_parse ut j,
          data_type := some (dataTypeName ut) })
    ∧ (∀ cands, (∀ c ∈ cands, c = (none : Option JValue)) →
      extract_json_ld_data cands ut =
        { found := false, raw_json := none, parsed_data := [], data_type := none }) := by
  constructor
  · intro pre j rest hpre
    induction pre with
    | nil => rfl
    | cons c cs ih =>
      have hc : c = none := hpre c (by simp)
      subst hc
      simpa [extract_json_ld_data] using ih (fun c hc => hpre c (by simp [hc]))
  · intro cands h
    induction cands with
    | nil => rfl
    | cons c cs ih =>
      have hc : c = none := h c (by simp)
      subst hc
      simpa [extract_json_ld_data] using ih (fun c hc => h c (by simp [hc]))

/-- Witness for C2 amended at concrete candidate lists. -/
theorem first_parse_success_used_witness :
    extract_json_ld_data [none, some (JValue.obj [])] UrlType.generic =
      { found := true, raw_json := some (JValue.obj []),
        parsed_data := dispatch_parse UrlType.generic (JValue.obj []),
        data_type := some (dataTypeName UrlType.generic) }
    ∧ extract_json_ld_data [none, none] UrlType.generic =
      { found := false, raw_json := none, parsed_data := [], data_type := none } :=
  ⟨(first_parse_success_used UrlType.generic).1 [none] (JValue.obj []) [] (by simp),
    (first_parse_success_used UrlType.generic).2 [none, none] (by simp)⟩

/-- C3: the top-level success flag equals the `found` flag of the
structured-data extraction, for every input — in particular it does not
depend on the meta tags, the page title, or anything the reconciler's
fallbacks add to the combined record; equivalently, success holds exactly
when some JSON-LD candidate parses. -/
theorem extraction_success_iff_structured_found (url : String) (popupClosed : Bool)
    (cands : List (Option JValue)) (metaTags : List MetaTag) (titleText : Option String)
    (ut : UrlType) (pageUrl : String) :
    (extract_linkedin_data_core url popupClosed cands metaTags titleText ut pageUrl).extraction_success
      = (extract_json_ld_data cands ut).found
    ∧ (extract_linkedin_data_core url popupClosed cands metaTags titleText ut pageUrl).extraction_success
      = cands.any (fun c => c.isSome) := by
  refine ⟨rfl, ?_⟩
  show (extract_json_ld_data cands ut).found = cands.any (fun c => c.isSome)
  induction cands with
  | nil => rfl
  | cons c rest ih => cases c <;> simp [extract_json_ld_data, ih]

/-- C4 counterexample: on a direct Person node whose interaction statistic
declares the insecure variant `http://schema.org/FollowAction`, the profile
parser extracts no follower count, while the secure variant succeeds — so
the profile site does not accept both scheme-prefix variants. -/
theorem follow_action_both_variants_counterexample :
    dget (parse_profile_json_ld (JValue.obj [("@type", JValue.str "Person"),
        ("interactionStatistic", JValue.obj [("interactionType", JValue.str "http://schema.org/FollowAction"),
          ("userInteractionCount", JValue.num 5)])])) "followers" = none
    ∧ dget (parse_profile_json_ld (JValue.obj [("@type", JValue.str "Person"),
        ("interactionStatistic", JValue.obj [("interactionType", JValue.str "https://schema.org/FollowAction"),
          ("userInteractionCount", JValue.num 5)])])) "followers" = some (JValue.num 5) :=
  ⟨rfl, rfl⟩

/-- C4 amended: each follow-action consultation site matches its type string
by exact, case-sensitive equality against a single scheme variant — the
profile parser and the newsletter author accept only
`https://schema.org/FollowAction`, the post author accepts only
`http://schema.org/FollowAction`; the respective other variant is
rejected. -/
theorem follow_action_exact_variant (t : String) (n : Int) :
    dget (parse_profile_json_ld (JValue.obj [("@type", JValue.str "Person"),
        ("interactionStatistic", JValue.obj [("interactionType", JValue.str t),
          ("userInteractionCount", JValue.num n)])])) "followers"
      = (if t = "https://schema.org/FollowAction" then some (JValue.num n) else none)
    ∧ dget (parse_post_json_ld (JValue.obj [("@type", JValue.str "DiscussionForumPosting"),
        ("author", JValue.obj [("interactionStatistic", JValue.obj [("interactionType", JValue.str t),
          ("userInteractionCount", JValue.num n)])])])) "author_followers"
      = (if t = "http://schema.org/FollowAction" then some (JValue.num n) else none)
    ∧ dget (parse_newsletter_json_ld (JValue.obj [("@type", JValue.str "Article"),
        ("author", JValue.obj [("interactionStatistic", JValue.obj [("interactionType", JValue.str t),
          ("userInteractionCount", JValue.num n)])])])) "author_followers"
      = (if t = "https://schema.org/FollowAction" then some (JValue.num n) else none) := by
  refine ⟨?_, ?_, ?_⟩
  · by_cases ht : t = "https://schema.org/FollowAction"
    · subst ht
      simp only [if_pos]
      rfl
    · rw [if_neg ht]
      have hb : (t == "https://schema.org/FollowAction") = false := beq_eq_false_iff_ne.mpr ht
      simp [parse_profile_json_ld, parse_profile_body, profileDirect, profileFollowers,
        pyContains, typeIs, isStrVal, dgetD, dget, dhas, dset, hb]
  · by_cases ht : t = "http://schema.org/FollowAction"
    · subst ht
      simp only [if_pos]
      rfl
    · rw [if_neg ht]
      have hb : (t == "http://schema.org/FollowAction") = false := beq_eq_false_iff_ne.mpr ht
      simp [parse_post_json_ld, parse_post_body, postAuthor, postStats, typeIs, isStrVal,
        dgetD, dget, dhas, dset, hb]
  · by_cases ht : t = "https://schema.org/FollowAction"
    · subst ht
      simp only [if_pos]
      rfl
    · rw [if_neg ht]
      have hb : (t == "https://schema.org/FollowAction") = false := beq_eq_false_iff_ne.mpr ht
      simp [parse_newsletter_json_ld, parse_newsletter_body, newsletterAuthor, typeIs, isStrVal,
        dgetD, dget, dhas, dset, hb]

/-- C5 counterexample: on `profileFaultTree` the parser body raises after
accumulating four fields, and the caught exception yields that non-empty
partial dictionary — not an empty ParsedEntity as the claim states. -/
theorem parser_fault_partial_counterexample :
    parse_profile_body profileFaultTree = .error profileFaultPartial
    ∧ parse_profile_json_ld profileFaultTree = profileFaultPartial
    ∧ profileFaultPartial ≠ [] :=
  ⟨rfl, rfl, List.cons_ne_nil _ _⟩

/-- C5 amended: for every input tree, an exception raised inside any of the
five entity parser bodies is caught at the parser boundary and the parser
returns the fields accumulated before the fault (possibly a partial,
non-empty dictionary); the exception never propagates to the caller. -/
theorem parser_fault_caught_at_boundary (j : JValue) :
    (∀ pd, parse_profile_body j = .error pd → parse_profile_json_ld j = pd)
    ∧ (∀ pd, parse_company_body j = .error pd → parse_company_json_ld j = pd)
    ∧ (∀ pd, parse_post_body j = .error pd → parse_post_json_ld j = pd)
    ∧ (∀ pd, parse_newsletter_body j = .error pd → parse_newsletter_json_ld j = pd)
    ∧ (∀ pd, parse_generic_body j = .error pd → parse_generic_json_ld j = pd) := by
  refine ⟨?_, ?_, ?_, ?_, ?_⟩ <;> intro pd h <;>
    simp [parse_profile_json_ld, parse_company_json_ld, parse_post_json_ld,
      parse_newsletter_json_ld, parse_generic_json_ld, h]

/-- Witness for C5 amended: the caught fault on `profileFaultTree` returns
the partial data. -/
theorem parser_fault_caught_at_boundary_witness :
    parse_profile_json_ld profileFaultTree = profileFaultPartial :=
  (parser_fault_caught_at_boundary profileFaultTree).1 profileFaultPartial rfl

theorem profileGraphLoop_skip (pre xs : List JValue) (pd : Dict)
    (h : ∀ i ∈ pre, skipsType "Person" i = true) :
    profileGraphLoop (pre ++ xs) pd = profileGraphLoop xs pd := by
  induction pre with
  | nil => rfl
  | cons i rest ih =>
    cases i
    case obj d =>
      have hi := h _ (List.mem_cons_self _ _)
      simp only [skipsType, Bool.not_eq_true'] at hi
      simp only [List.cons_append, profileGraphLoop, hi]
      simp only [Bool.false_eq_true, if_false]
      exact ih (fun x hx => h x (List.mem_cons_of_mem _ hx))
    all_goals exact absurd (h _ (List.mem_cons_self _ _)) (by simp [skipsType])

theorem profileGraphLoop_noTarget (items : List JValue) (pd : Dict)
    (h : ∀ i ∈ items, isTypedNode "Person" i = false) :
    profileGraphLoop items pd = .ok pd ∨ profileGraphLoop items pd = .error pd := by
  induction items with
  | nil => left; rfl
  | cons i rest ih =>
    cases i
    case obj d =>
      have hi := h _ (List.mem_cons_self _ _)
      simp only [isTypedNode] at hi
      simp only [profileGraphLoop, hi, Bool.false_eq_true, if_false]
      exact ih (fun x hx => h x (List.mem_cons_of_mem _ hx))
    all_goals exact Or.inr rfl

theorem companyGraphLoop_skip (pre xs : List JValue) (pd : Dict)
    (h : ∀ i ∈ pre, skipsType "Organization" i = true) :
    companyGraphLoop (pre ++ xs) pd = companyGraphLoop xs pd := by
  induction pre with
  | nil => rfl
  | cons i rest ih =>
    cases i
    case obj d =>
      have hi := h _ (List.mem_cons_self _ _)
      simp only [skipsType, Bool.not_eq_true'] at hi
      simp only [List.cons_append, companyGraphLoop, hi]
      simp only [Bool.false_eq_true, if_false]
      exact ih (fun x hx => h x (List.mem_cons_of_mem _ hx))
    all_goals exact absurd (h _ (List.mem_cons_self _ _)) (by simp [skipsType])

theorem companyGraphLoop_noTarget (items : List JValue) (pd : Dict)
    (h : ∀ i ∈ items, isTypedNode "Organization" i = false) :
    companyGraphLoop items pd = .ok pd ∨ companyGraphLoop items pd = .error pd := by
  induction items with
  | nil => left; rfl
  | cons i rest ih =>
    cases i
    case obj d =>
      have hi := h _ (List.mem_cons_self _ _)
      simp only [isTypedNode] at hi
      simp only [companyGraphLoop, hi, Bool.false_eq_true, if_false]
      exact ih (fun x hx => h x (List.mem_cons_of_mem _ hx))
    all_goals exact Or.inr rfl

theorem parse_profile_body_graph (items : List JValue) :
    parse_profile_body (JValue.obj [("@graph", JValue.arr items)]) = profileGraphLoop items [] := rfl

theorem parse_company_body_graph (items : List JValue) :
    parse_company_body (JValue.obj [("@graph", JValue.arr items)]) = companyGraphLoop items [] := rfl

/-- C6 amended: the profile and organization parsers tolerate the graph
container, parsing the first node of their target type while skipping
earlier differently-typed dict nodes and ignoring everything after it, and
return an empty ParsedEntity when no target-typed node is present; the post
and newsletter parsers do not scan graph containers at all — on a pure graph
container they return an empty ParsedEntity without raising. -/
theorem graph_container_handling :
    (∀ pre d rest, (∀ i ∈ pre, skipsType "Person" i = true) → typeIs d "Person" = true →
      parse_profile_json_ld (JValue.obj [("@graph", JValue.arr (pre ++ JValue.obj d :: rest))])
        = parse_profile_json_ld (JValue.obj [("@graph", JValue.arr [JValue.obj d])]))
    ∧ (∀ items, (∀ i ∈ items, isTypedNode "Person" i = false) →
      parse_profile_json_ld (JValue.obj [("@graph", JValue.arr items)]) = [])
    ∧ (∀ pre d rest, (∀ i ∈ pre, skipsType "Organization" i = true) → typeIs d "Organization" = true →
      parse_company_json_ld (JValue.obj [("@graph", JValue.arr (pre ++ JValue.obj d :: rest))])
        = parse_company_json_ld (JValue.obj [("@graph", JValue.arr [JValue.obj d])]))
    ∧ (∀ items, (∀ i ∈ items, isTypedNode "Organization" i = false) →
      parse_company_json_ld (JValue.obj [("@graph", JValue.arr items)]) = [])
    ∧ (∀ g, parse_post_json_ld (JValue.obj [("@graph", g)]) = [])
    ∧ (∀ g, parse_newsletter_json_ld (JValue.obj [("@graph", g)]) = []) := by
  refine ⟨?_, ?_, ?_, ?_, ?_, ?_⟩
  · intro pre d rest hpre htype
    unfold parse_profile_json_ld
    rw [parse_profile_body_graph, parse_profile_body_graph, profileGraphLoop_skip pre _ _ hpre]
    simp [profileGraphLoop, htype]
  · intro items h
    unfold parse_profile_json_ld
    rw [parse_profile_body_graph]
    rcases profileGraphLoop_noTarget items [] h with hcase | hcase <;> rw [hcase]
  · intro pre d rest hpre htype
    unfold parse_company_json_ld
    rw [parse_company_body_graph, parse_company_body_graph, companyGraphLoop_skip pre _ _ hpre]
    simp [companyGraphLoop, htype]
  · intro items h
    unfold parse_company_json_ld
    rw [parse_company_body_graph]
    rcases companyGraphLoop_noTarget items [] h with hcase | hcase <;> rw [hcase]
  · intro g
    rfl
  · intro g
    rfl

/-- Witness for C6 amended at concrete graph containers. -/
theorem graph_container_handling_witness :
    parse_profile_json_ld (JValue.obj [("@graph", JValue.arr
        [JValue.obj [("@type", JValue.str "Organization")],
         JValue.obj [("@type", JValue.str "Person"), ("name", JValue.str "Ada")]])])
      = parse_profile_json_ld (JValue.obj [("@graph", JValue.arr
        [JValue.obj [("@type", JValue.str "Person"), ("name", JValue.str "Ada")]])])
    ∧ parse_profile_json_ld (JValue.obj [("@graph", JValue.arr
        [JValue.obj [("@type", JValue.str "Organization")]])]) = []
    ∧ parse_company_json_ld (JValue.obj [("@graph", JValue.arr
        [JValue.obj [("@type", JValue.str "Person")],
         JValue.obj [("@type", JValue.str "Organization"), ("name", JValue.str "Acme")]])])
      = parse_company_json_ld (JValue.obj [("@graph", JValue.arr
        [JValue.obj [("@type", JValue.str "Organization"), ("name", JValue.str "Acme")]])])
    ∧ parse_company_json_ld (JValue.obj [("@graph", JValue.arr
        [JValue.obj [("@type", JValue.str "Person")]])]) = [] :=
  ⟨graph_container_handling.1 [JValue.obj [("@type", JValue.str "Organization")]] _ []
      (by intro i hi; simp at hi; subst hi; rfl) rfl,
    graph_container_handling.2.1 _ (by intro i hi; simp at hi; subst hi; rfl),
    graph_container_handling.2.2.1 [JValue.obj [("@type", JValue.str "Person")]] _ []
      (by intro i hi; simp at hi; subst hi; rfl) rfl,
    graph_container_handling.2.2.2.1 _ (by intro i hi; simp at hi; subst hi; rfl)⟩

/-- C6 counterexample: the post parser returns an empty ParsedEntity on a
graph container holding a DiscussionForumPosting node (instead of scanning
for it, as the same node parses fine directly); likewise the newsletter
parser for an Article node. -/
theorem graph_container_post_counterexample :
    parse_post_json_ld (JValue.obj [("@graph", JValue.arr
        [JValue.obj [("@type", JValue.str "DiscussionForumPosting"), ("headline", JValue.str "H")]])]) = []
    ∧ dget (parse_post_json_ld (JValue.obj [("@type", JValue.str "DiscussionForumPosting"),
        ("headline", JValue.str "H")])) "headline" = some (JValue.str "H")
    ∧ parse_newsletter_json_ld (JValue.obj [("@graph", JValue.arr
        [JValue.obj [("@type", JValue.str "Article"), ("headline", JValue.str "H")]])]) = []
    ∧ dget (parse_newsletter_json_ld (JValue.obj [("@type", JValue.str "Article"),
        ("headline", JValue.str "H")])) "headline" = some (JValue.str "H") :=
  ⟨rfl, rfl, rfl, rfl⟩

/-- C7 counterexample: with urlType newsletter and no structured data found
but an empty OpenGraph bucket, the fallback synthesises nothing — no `name`,
no sentinel author, no sentinel publish date — refuting the claimed "if and
only if" trigger condition. -/
theorem newsletter_fallback_counterexample :
    dget (combine_data_sources jldNotFound emptyBuckets .newsletter "x") "author" = none
    ∧ dget (combine_data_sources jldNotFound emptyBuckets .newsletter "x") "name" = none
    ∧ dget (combine_data_sources jldNotFound emptyBuckets .newsletter "x") "date_published" = none :=
  ⟨rfl, rfl, rfl⟩

theorem combineNewsletterFallback_fires (d0 : Dict) (mb : MetaBuckets)
    (hog : mb.open_graph.isEmpty = false) :
    combineNewsletterFallback d0 false mb .newsletter =
      dset (dset (dset (dset (dset (dset d0
        "name" (.str (newsletterNameOfTitle (sgetD mb.open_graph "og:title" ""))))
        "description" (.str (sgetD mb.open_graph "og:description" "")))
        "image_url" (.str (sgetD mb.open_graph "og:image" "")))
        "url" (.str (sgetD mb.open_graph "og:url" "")))
        "author" (.obj [("name", .str "N/A"), ("url", .str "N/A")]))
        "date_published" (.str "N/A") := by
  show (if List.isEmpty mb.open_graph = true then d0
    else dset (dset (dset (dset (dset (dset d0
      "name" (.str (newsletterNameOfTitle (sgetD mb.open_graph "og:title" ""))))
      "description" (.str (sgetD mb.open_graph "og:description" "")))
      "image_url" (.str (sgetD mb.open_graph "og:image" "")))
      "url" (.str (sgetD mb.open_graph "og:url" "")))
      "author" (.obj [("name", .str "N/A"), ("url", .str "N/A")]))
      "date_published" (.str "N/A")) = _
  rw [hog]
  simp

/-- C7 amended: the newsletter fallback fires exactly when urlType is
newsletter, structured data was not found, AND the OpenGraph bucket is
non-empty; when it fires it derives `name` from the OpenGraph title by
vertical-bar splitting, copies description/image/URL from the OpenGraph
bucket, and writes the sentinel author and publish date; when structured
data was found, or for any other urlType, none of these six fields is
synthesised (each keeps its step-1 entity value, possibly absent). -/
theorem newsletter_fallback_conditions (jld : JsonLdData) (mb : MetaBuckets) (pageUrl : String) :
    (jld.found = false → mb.open_graph ≠ [] →
      dget (combine_data_sources jld mb .newsletter pageUrl) "name"
          = some (.str (newsletterNameOfTitle (sgetD mb.open_graph "og:title" "")))
        ∧ dget (combine_data_sources jld mb .newsletter pageUrl) "description"
          = some (.str (sgetD mb.open_graph "og:description" ""))
        ∧ dget (combine_data_sources jld mb .newsletter pageUrl) "image_url"
          = some (.str (sgetD mb.open_graph "og:image" ""))
        ∧ dget (combine_data_sources jld mb .newsletter pageUrl) "url"
          = some (.str (sgetD mb.open_graph "og:url" ""))
        ∧ dget (combine_data_sources jld mb .newsletter pageUrl) "author"
          = some (.obj [("name", .str "N/A"), ("url", .str "N/A")])
        ∧ dget (combine_data_sources jld mb .newsletter pageUrl) "date_published"
          = some (.str "N/A"))
    ∧ (jld.found = true →
      ∀ k, k ∈ ["name", "description", "image_url", "url", "author", "date_published"] →
        dget (combine_data_sources jld mb .newsletter pageUrl) k = dget (combineSeed jld) k)
    ∧ (∀ ut, ut ≠ UrlType.newsletter →
      dget (combine_data_sources jld mb ut pageUrl) "author" = dget (combineSeed jld) "author"
      ∧ dget (combine_data_sources jld mb ut pageUrl) "date_published"
        = dget (combineSeed jld) "date_published") := by
  refine ⟨?_, ?_, ?_⟩
  · intro hfound hog
    have hog2 : mb.open_graph.isEmpty = false := by
      cases hOG : mb.open_graph
      · exact absurd hOG hog
      · rfl
    unfold combine_data_sources
    rw [hfound, combineNewsletterFallback_fires _ _ hog2]
    refine ⟨?_, ?_, ?_, ?_, ?_, ?_⟩ <;>
      simp [dget_combineUsername, dget_dset_ne, dget_dset_self]
  · intro hfound k hk
    unfold combine_data_sources
    rw [hfound, combineNewsletterFallback_found]
    fin_cases hk <;>
      simp [dget_combineUsername, dget_combineMeta]
  · intro ut hut
    unfold combine_data_sources
    rw [combineNewsletterFallback_not_newsletter _ _ _ _ hut]
    constructor <;> simp [dget_combineUsername, dget_combineMeta]

/-- Witness for C7 amended at a concrete newsletter page. -/
theorem newsletter_fallback_conditions_witness :
    dget (combine_data_sources jldNotFound ogTitleBuckets .newsletter "x") "author"
      = some (.obj [("name", .str "N/A"), ("url", .str "N/A")])
    ∧ dget (combine_data_sources jldFoundEmpty ogTitleBuckets .newsletter "x") "name"
      = dget (combineSeed jldFoundEmpty) "name"
    ∧ dget (combine_data_sources jldNotFound ogTitleBuckets .post "x") "author"
      = dget (combineSeed jldNotFound) "author" :=
  ⟨((newsletter_fallback_conditions jldNotFound ogTitleBuckets "x").1 rfl
      (by simp [ogTitleBuckets])).2.2.2.2.1,
    (newsletter_fallback_conditions jldFoundEmpty ogTitleBuckets "x").2.1 rfl "name" (by simp),
    ((newsletter_fallback_conditions jldNotFound ogTitleBuckets "x").2.2 .post (by intro h; cases h)).1⟩

theorem captureRun_all (cs : List Char) : (captureRun cs).all (fun c => !isStopChar c) = true := by
  simp only [captureRun, List.all_eq_true]
  intro c hc
  have h2 := List.mem_takeWhile_imp hc
  simpa using h2

theorem findCapture_all (marker cs u : List Char) (h : findCapture marker cs = some u) :
    u.all (fun c => !isStopChar c) = true := by
  induction cs with
  | nil => simp [findCapture] at h
  | cons c rest ih =>
    simp only [findCapture] at h
    split at h
    · split at h
      · exact ih h
      · obtain rfl := Option.some.inj h
        exact captureRun_all _
    · exact ih h

/-- C8: the username backfill — when the combined record carries no
`username` binding, the profile, company and newsletter URL types derive it
as the captured group of the respective marker pattern over the page URL
(and leave the record unchanged when the pattern does not match); the
captured segment never contains a `/` or `?` character; no rule exists for
posts or unrecognised types; a record with a truthy `username` is left
unchanged; and the documented example URL yields `jdoe`. -/
theorem username_backfill (d : Dict) (pageUrl : String) :
    (dget d "username" = none →
      dget (combineUsername d .profile pageUrl) "username"
        = (captureAfter "linkedin.com/in/" pageUrl).map JValue.str
      ∧ dget (combineUsername d .company pageUrl) "username"
        = (captureAfter "linkedin.com/company/" pageUrl).map JValue.str
      ∧ dget (combineUsername d .newsletter pageUrl) "username"
        = (captureAfter "linkedin.com/newsletters/" pageUrl).map JValue.str)
    ∧ combineUsername d .post pageUrl = d
    ∧ combineUsername d .generic pageUrl = d
    ∧ (∀ ut, truthyO (dget d "username") = true → combineUsername d ut pageUrl = d)
    ∧ (∀ u, captureAfter "linkedin.com/in/" pageUrl = some u →
        u.toList.all (fun c => !isStopChar c) = true)
    ∧ dget (combineUsername [] .profile "https://www.linkedin.com/in/jdoe?trk=abc") "username"
        = some (JValue.str "jdoe") := by
  refine ⟨?_, rfl, rfl, ?_, ?_, rfl⟩
  · intro h
    refine ⟨?_, ?_, ?_⟩ <;>
      · simp only [combineUsername, h, truthyO, Bool.not_false, if_pos]
        cases hcap : captureAfter _ pageUrl <;> simp [hcap, dget_dset_self, h]
  · intro ut h
    cases ut <;> simp [combineUsername, h]
  · intro u hcap
    simp only [captureAfter, Option.map_eq_some'] at hcap
    obtain ⟨l, hl, rfl⟩ := hcap
    simpa [String.toList] using findCapture_all _ _ _ hl

/-- Witness for C8 at concrete records and URLs. -/
theorem username_backfill_witness :
    dget (combineUsername [] .profile "https://www.linkedin.com/in/jdoe?trk=abc") "username"
      = (captureAfter "linkedin.com/in/" "https://www.linkedin.com/in/jdoe?trk=abc").map JValue.str
    ∧ combineUsername [("username", JValue.str "u")] .profile "x" = [("username", JValue.str "u")]
    ∧ "jdoe".toList.all (fun c => !isStopChar c) = true :=
  ⟨((username_backfill [] "https://www.linkedin.com/in/jdoe?trk=abc").1 rfl).1,
    (username_backfill [("username", JValue.str "u")] "x").2.2.2.1 .profile rfl,
    (username_backfill [] "https://www.linkedin.com/in/jdoe?trk=abc").2.2.2.2.1 "jdoe" rfl⟩

/-- C9 counterexample: a meta entry with a name/content pair whose content
value is the empty string is dropped from every bucket, refuting the claim
that no entry is dropped for having an empty value. -/
theorem empty_content_dropped_counterexample :
    (extract_meta_data [{ name := some "og:title", property := none, content := some "" }] none).open_graph = []
    ∧ (extract_meta_data [{ name := some "og:title", property := none, content := some "" }] none).twitter = []
    ∧ (extract_meta_data [{ name := some "og:title", property := none, content := some "" }] none).other_meta = [] :=
  ⟨rfl, rfl, rfl⟩

/-- C9 amended: the meta-tag loop keeps an entry exactly when both its
resolved name (the name attribute, falling back to property) and its content
attribute are present and non-empty; a kept entry is classified by prefix
into the OpenGraph, Twitter or other bucket; an entry whose resolved name or
content is missing or empty — including one with an empty content value — is
skipped. -/
theorem meta_entry_classification (md : MetaBuckets) (m : MetaTag) :
    ((strTruthy (pyOrStr m.name m.property) && strTruthy m.content) = false → metaStep md m = md)
    ∧ (∀ n c, pyOrStr m.name m.property = some n → m.content = some c → n ≠ "" → c ≠ "" →
        metaStep md m =
          (if strStartsWith n "og:" then { md with open_graph := sset md.open_graph n c }
           else if strStartsWith n "twitter:" then { md with twitter := sset md.twitter n c }
           else { md with other_meta := sset md.other_meta n c })) := by
  constructor
  · intro h
    simp [metaStep, h]
  · intro n c hn hc hne hce
    have hb1 : (n == "") = false := beq_eq_false_iff_ne.mpr hne
    have hb2 : (c == "") = false := beq_eq_false_iff_ne.mpr hce
    simp [metaStep, hn, hc, strTruthy, hb1, hb2]

/-- Witness for C9 amended on a dropped entry and a classified entry. -/
theorem meta_entry_classification_witness :
    metaStep emptyBuckets { name := some "x", property := none, content := some "" } = emptyBuckets
    ∧ metaStep emptyBuckets { name := some "og:a", property := none, content := some "v" }
      = (if strStartsWith "og:a" "og:" then { emptyBuckets with open_graph := sset emptyBuckets.open_graph "og:a" "v" }
         else if strStartsWith "og:a" "twitter:" then { emptyBuckets with twitter := sset emptyBuckets.twitter "og:a" "v" }
         else { emptyBuckets with other_meta := sset emptyBuckets.other_meta "og:a" "v" }) :=
  ⟨(meta_entry_classification emptyBuckets _).1 rfl,
    (meta_entry_classification emptyBuckets _).2 "og:a" "v" rfl rfl (by decide) (by decide)⟩

theorem dget_profileDirect_other (d : Dict) (k : String)
    (h1 : k ≠ "name") (h2 : k ≠ "job_title") (h3 : k ≠ "description") (h4 : k ≠ "url")
    (h5 : k ≠ "image_url") (h6 : k ≠ "followers") :
    dget (profileDirect d) k = none := by
  unfold profileDirect profileFollowers
  repeat' split
  all_goals simp [dget_dset_ne, dget, Ne.symm h1, Ne.symm h2, Ne.symm h3, Ne.symm h4,
    Ne.symm h5, Ne.symm h6]

/-- C10: on a direct top-level node (no graph container), the profile parser
never emits the `location`, `country` or `works_for` fields — even when
`address` and `worksFor` entries are present in the tree — since only the
graph branch extracts them. -/
theorem direct_person_no_address_fields (d : Dict) (hg : dhas d "@graph" = false) :
    dget (parse_profile_json_ld (JValue.obj d)) "location" = none
    ∧ dget (parse_profile_json_ld (JValue.obj d)) "country" = none
    ∧ dget (parse_profile_json_ld (JValue.obj d)) "works_for" = none := by
  have hbody : parse_profile_body (JValue.obj d)
      = .ok (if typeIs d "Person" then profileDirect d else []) := by
    simp [parse_profile_body, pyContains, hg]
  refine ⟨?_, ?_, ?_⟩ <;>
    · unfold parse_profile_json_ld
      rw [hbody]
      show dget (if typeIs d "Person" = true then profileDirect d else []) _ = none
      split
      · exact dget_profileDirect_other d _ (by decide) (by decide) (by decide) (by decide)
          (by decide) (by decide)
      · rfl

/-- Witness for C10: a direct Person node carrying both an address and a
worksFor list still yields none of the three fields. -/
theorem direct_person_no_address_fields_witness :
    dget (parse_profile_json_ld (JValue.obj [("@type", JValue.str "Person"),
        ("address", JValue.obj [("addressLocality", JValue.str "Rome")]),
        ("worksFor", JValue.arr [JValue.obj [("name", JValue.str "Acme")]])])) "location" = none
    ∧ dget (parse_profile_json_ld (JValue.obj [("@type", JValue.str "Person"),
        ("address", JValue.obj [("addressLocality", JValue.str "Rome")]),
        ("worksFor", JValue.arr [JValue.obj [("name", JValue.str "Acme")]])])) "country" = none
    ∧ dget (parse_profile_json_ld (JValue.obj [("@type", JValue.str "Person"),
        ("address", JValue.obj [("addressLocality", JValue.str "Rome")]),
        ("worksFor", JValue.arr [JValue.obj [("name", JValue.str "Acme")]])])) "works_for" = none :=
  direct_person_no_address_fields [("@type", JValue.str "Person"),
    ("address", JValue.obj [("addressLocality", JValue.str "Rome")]),
    ("worksFor", JValue.arr [JValue.obj [("name", JValue.str "Acme")]])] rfl
